import Mathlib

/-!
Shallow embedding of the two Lambda handlers of this repository:
  - src/dynodb_data_validate_with_dlq.py  (namespace Validator)
  - src/s3_to_dynodb.py                   (namespace Copier)

Events, records and attribute images are JSON-like values.  Python dict
indexing d[k] is modelled by getKey, which fails with keyError on a
missing key and with typeError on a non-object; a raised Python
exception is an Except.error value that propagates out of the handler.
Objects are association lists; dict-derived objects never repeat a key,
so first-match lookup agrees with Python semantics on all inputs used
here.
-/

inductive JVal where
  | str : String → JVal
  | num : Int → JVal
  | bool : Bool → JVal
  | null : JVal
  | arr : List JVal → JVal
  | obj : List (String × JVal) → JVal
deriving Repr

/-- Errors a handler run can end in.  malformedEntry models the
`raise Exception(f"Malformed record detected: ...")` line and carries the
offending NewImage value; keyError models a Python KeyError with the
missing key; the remaining constructors model IndexError, TypeError and
a failed external fetch. -/
inductive PyError where
  | malformedEntry : JVal → PyError
  | keyError : String → PyError
  | indexError : PyError
  | typeError : PyError
  | s3Error : PyError
deriving Repr

def lookupField : List (String × JVal) → String → Option JVal
  | [], _ => none
  | (k, v) :: rest, key => if k = key then some v else lookupField rest key

/-- Python d[k] on a dict: the value, KeyError when absent, TypeError when
the receiver is not a mapping. -/
def getKey : JVal → String → Except PyError JVal
  | JVal.obj fields, k =>
    match lookupField fields k with
    | some v => Except.ok v
    | none => Except.error (PyError.keyError k)
  | _, _ => Except.error PyError.typeError

/-- Python membership test (k in d) for a dict receiver. -/
def hasKey : JVal → String → Bool
  | JVal.obj fields, k => (lookupField fields k).isSome
  | _, _ => false

/-- Python xs[0] on a list: first element, IndexError when empty. -/
def index0 : JVal → Except PyError JVal
  | JVal.arr (x :: _) => Except.ok x
  | JVal.arr [] => Except.error PyError.indexError
  | _ => Except.error PyError.typeError

namespace Validator

/-- One print line of the validator, by content. -/
inductive LogLine where
  | receivedRecords : JVal → LogLine
  | processingRecord : JVal → LogLine
  | processedId : JVal → LogLine
deriving Repr

/-- record["dynamodb"]["NewImage"] -/
def recordNewImage (r : JVal) : Except PyError JVal := do
  let d ← getKey r "dynamodb"
  getKey d "NewImage"

/-- Body of one loop iteration of lambda_handler, threading the print
stream: fetch NewImage, print it, fail on a missing value field, else
print the id wrapper content new_image["id"]["S"] and continue. -/
def processRecordStream (r : JVal) (s : List LogLine) :
    List LogLine × Option PyError :=
  match recordNewImage r with
  | Except.error e => (s, some e)
  | Except.ok ni =>
    let s1 := s ++ [LogLine.processingRecord ni]
    if hasKey ni "value" then
      match (do
          let idv ← getKey ni "id"
          getKey idv "S" : Except PyError JVal) with
      | Except.error e => (s1, some e)
      | Except.ok sv => (s1 ++ [LogLine.processedId sv], none)
    else (s1, some (PyError.malformedEntry ni))

/-- The for-loop over event["Records"], stopping at the first error. -/
def processLoopStream : List JVal → List LogLine →
    List LogLine × Option PyError
  | [], s => (s, none)
  | r :: rs, s =>
    let p := processRecordStream r s
    match p.2 with
    | none => processLoopStream rs p.1
    | some e => (p.1, some e)

/-- Success return value of the validator. -/
def statusOk : JVal := JVal.obj [("statusCode", JVal.num 200)]

/-- lambda_handler of src/dynodb_data_validate_with_dlq.py, threading an
explicit print stream: print the received event, iterate the records,
return statusCode 200 when no record fails. -/
def lambda_handler_stream (event : JVal) (s : List LogLine) :
    List LogLine × Except PyError JVal :=
  let s0 := s ++ [LogLine.receivedRecords event]
  match getKey event "Records" with
  | Except.error e => (s0, Except.error e)
  | Except.ok (JVal.arr rs) =>
    match processLoopStream rs s0 with
    | (s1, none) => (s1, Except.ok statusOk)
    | (s1, some e) => (s1, Except.error e)
  | Except.ok _ => (s0, Except.error PyError.typeError)

/-- lambda_handler run on a fresh print stream. -/
def lambda_handler (event : JVal) : List LogLine × Except PyError JVal :=
  lambda_handler_stream event []

/-- Print lines one record contributes. -/
def entryLogs (r : JVal) : List LogLine := (processRecordStream r []).1

/-- Error one record raises, if any. -/
def entryErr (r : JVal) : Option PyError := (processRecordStream r []).2

/-- A record the loop body accepts: dynamodb.NewImage present, the value
field present, and the id wrapper carrying an S component. -/
def isValidEntry (r : JVal) : Bool := (entryErr r).isNone

/-- A record with dynamodb.NewImage present whose NewImage lacks the
value field: exactly the records the malformed-entry branch fires on. -/
def entryLacksValue (r : JVal) : Bool :=
  match recordNewImage r with
  | Except.ok ni => !(hasKey ni "value")
  | Except.error _ => false

/-- A record with dynamodb.NewImage present whose NewImage contains the
value field. -/
def entryHasValue (r : JVal) : Bool :=
  match recordNewImage r with
  | Except.ok ni => hasKey ni "value"
  | Except.error _ => false

/-- The id content a record would be reported with:
new_image["id"]["S"]. -/
def entryIdS (r : JVal) : Option JVal :=
  match recordNewImage r with
  | Except.ok ni =>
    match getKey ni "id" with
    | Except.ok idv => (getKey idv "S").toOption
    | Except.error _ => none
  | Except.error _ => none

/-- The ids a print stream reports as successfully processed. -/
def reportedIds (s : List LogLine) : List JVal :=
  s.filterMap fun l =>
    match l with
    | LogLine.processedId v => some v
    | _ => none

/-- Whether a handler outcome is the malformed-entry error. -/
def isMalformedError : Except PyError JVal → Bool
  | Except.error (PyError.malformedEntry _) => true
  | _ => false

/-- Whether a handler outcome is a normal return. -/
def isOkResult : Except PyError JVal → Bool
  | Except.ok _ => true
  | _ => false

end Validator

namespace Copier

/-- The fixed table name the copier writes to:
dynamodb.Table("dynotbl_1") at module load. -/
def table_name : String := "dynotbl_1"

/-- The external object store, as a finite map from bucket and key to the
parsed JSON content of the stored object.  The composition of
s3.get_object and json.loads on the fetched bytes is modelled as one
lookup into this map; a missing object or unparsable content is none. -/
def S3Store : Type := List ((String × String) × JVal)

/-- s3.get_object followed by json.loads of the body. -/
def s3_get_object : S3Store → String → String → Except PyError JVal
  | [], _, _ => Except.error PyError.s3Error
  | ((b, k), v) :: rest, bucket, key =>
    if b = bucket ∧ k = key then Except.ok v
    else s3_get_object rest bucket key

/-- One print line of the copier, by content. -/
inductive CopLog where
  | receivedEvent : JVal → CopLog
  | inserting : JVal → CopLog
deriving Repr

/-- Observable outcome of one copier invocation: print lines, the
sequence of table.put_item calls as pairs of table name and item, and
the returned value or raised error. -/
structure CopierOutput where
  logs : List CopLog
  writes : List (String × JVal)
  result : Except PyError JVal
deriving Repr

/-- Python str values pass into the get_object call; anything else is a
parameter type failure. -/
def asString : JVal → Except PyError String
  | JVal.str s => Except.ok s
  | _ => Except.error PyError.typeError

/-- From the first event record to the parsed object content:
bucket = r0["s3"]["bucket"]["name"], key = r0["s3"]["object"]["key"],
then fetch and parse. -/
def fetchParsed (store : S3Store) (r0 : JVal) : Except PyError JVal := do
  let s3part ← getKey r0 "s3"
  let bucketObj ← getKey s3part "bucket"
  let bucketName ← getKey bucketObj "name"
  let objectObj ← getKey s3part "object"
  let keyName ← getKey objectObj "key"
  let b ← asString bucketName
  let k ← asString keyName
  s3_get_object store b k

/-- Success return value of the copier. -/
def copierOk : JVal :=
  JVal.obj [("statusCode", JVal.num 200),
            ("body", JVal.str "Data inserted into DynamoDB")]

/-- lambda_handler of src/s3_to_dynodb.py: print the event, read bucket
and key from event["Records"][0], fetch and parse the object, put_item
every parsed record in order, return statusCode 200 with the fixed
body. -/
def lambda_handler (store : S3Store) (event : JVal) : CopierOutput :=
  let logs := [CopLog.receivedEvent event]
  match (do
      let recs ← getKey event "Records"
      let r0 ← index0 recs
      fetchParsed store r0 : Except PyError JVal) with
  | Except.error e => ⟨logs, [], Except.error e⟩
  | Except.ok (JVal.arr records) =>
    ⟨logs ++ records.map CopLog.inserting,
     records.map (fun r => (table_name, r)),
     Except.ok copierOk⟩
  | Except.ok _ => ⟨logs, [], Except.error PyError.typeError⟩

end Copier

/-!
Concrete inputs used to instantiate the theorems below.  They follow the
shapes of the scenarios in the repository description: change-feed
records wrap a NewImage attribute map whose attribute values are
single-key wrappers such as S-tagged strings.
-/

/-- A change-feed record carrying the given NewImage fields. -/
def mkRecord (fields : List (String × JVal)) : JVal :=
  JVal.obj [("dynamodb", JVal.obj [("NewImage", JVal.obj fields)])]

/-- An S-tagged string attribute value. -/
def wrapS (s : String) : JVal := JVal.obj [("S", JVal.str s)]

def validRec1 : JVal := mkRecord [("id", wrapS "1"), ("value", wrapS "x")]

def validRec3 : JVal := mkRecord [("id", wrapS "3"), ("value", wrapS "z")]

def noValueRec2 : JVal := mkRecord [("id", wrapS "2")]

def noValueRecEmpty : JVal := mkRecord []

def noIdRecX : JVal := mkRecord [("value", wrapS "x")]

def noIdRecY : JVal := mkRecord [("value", wrapS "y"), ("other", wrapS "w")]

def noDynamoRec : JVal := JVal.obj [("foo", JVal.null)]

def evW1 : JVal := JVal.obj [("Records", JVal.arr [validRec1, noValueRec2])]

def evW2 : JVal := JVal.obj [("Records", JVal.arr [validRec1, validRec3])]

def evC2x : JVal := JVal.obj [("Records", JVal.arr [noIdRecX])]

def evW3 : JVal :=
  JVal.obj [("Records", JVal.arr [validRec1, noValueRec2, validRec3])]

def evW4 : JVal := JVal.obj [("Records", JVal.arr [noValueRecEmpty])]

def evW5 : JVal := JVal.obj [("Records", JVal.arr [])]

def evC6x : JVal := JVal.obj [("Records", JVal.arr [noIdRecY])]

def evC7x : JVal :=
  JVal.obj [("Records", JVal.arr [noValueRecEmpty, noDynamoRec])]

def evW7a : JVal := JVal.obj [("other", JVal.null)]

def evW7b : JVal := JVal.obj [("Records", JVal.arr [noDynamoRec])]

def evW8 : JVal := JVal.obj [("Records", JVal.arr [validRec1])]

/-- An object-store notification record naming a bucket and a key. -/
def s3rec (b k : String) : JVal :=
  JVal.obj [("s3", JVal.obj [("bucket", JVal.obj [("name", JVal.str b)]),
                             ("object", JVal.obj [("key", JVal.str k)])])]

def evW9 : JVal := JVal.obj [("Records", JVal.arr [s3rec "demo-bucket" "data.json"])]

def itemsW9 : List JVal :=
  [JVal.obj [("id", JVal.str "1"), ("value", JVal.str "a")],
   JVal.obj [("id", JVal.str "2"), ("value", JVal.str "b")]]

def storeW9 : Copier.S3Store := [(("demo-bucket", "data.json"), JVal.arr itemsW9)]

def evW10a : JVal :=
  JVal.obj [("Records", JVal.arr [s3rec "demo-bucket" "data.json", JVal.str "extra"])]

def evW10b : JVal :=
  JVal.obj [("Records", JVal.arr [s3rec "demo-bucket" "data.json", noDynamoRec, JVal.null])]

namespace Validator

theorem processRecordStream_local (r : JVal) (s : List LogLine) :
    processRecordStream r s =
      (s ++ (processRecordStream r []).1, (processRecordStream r []).2) := by
  unfold processRecordStream
  cases hni : recordNewImage r with
  | error e => simp
  | ok ni =>
    cases hv : hasKey ni "value" with
    | false => simp [hv]
    | true =>
      cases hid : (do
          let idv ← getKey ni "id"
          getKey idv "S" : Except PyError JVal) with
      | error e => simp [hv, hid]
      | ok sv => simp [hv, hid]

theorem processLoopStream_local (rs : List JVal) (s : List LogLine) :
    processLoopStream rs s =
      (s ++ (processLoopStream rs []).1, (processLoopStream rs []).2) := by
  induction rs generalizing s with
  | nil => simp [processLoopStream]
  | cons r rest ih =>
    simp only [processLoopStream]
    rw [processRecordStream_local r s]
    cases he : (processRecordStream r []).2 with
    | none =>
      simp only [he]
      rw [ih (s ++ (processRecordStream r []).1),
        ih ((processRecordStream r []).1)]
      simp
    | some e => simp [he]

theorem lacksValue_spec (r ni : JVal) (s : List LogLine)
    (hni : recordNewImage r = Except.ok ni)
    (hv : hasKey ni "value" = false) :
    processRecordStream r s =
      (s ++ [LogLine.processingRecord ni],
       some (PyError.malformedEntry ni)) := by
  simp only [processRecordStream, hni, hv]
  simp

theorem validEntry_spec (r : JVal) (h : isValidEntry r = true) :
    ∃ ni sv, recordNewImage r = Except.ok ni ∧ hasKey ni "value" = true ∧
      entryIdS r = some sv ∧
      entryLogs r = [LogLine.processingRecord ni, LogLine.processedId sv] := by
  unfold isValidEntry entryErr at h
  unfold entryLogs entryIdS
  cases hni : recordNewImage r with
  | error e => simp only [processRecordStream, hni] at h; simp at h
  | ok ni =>
    simp only [processRecordStream, hni] at h ⊢
    cases hv : hasKey ni "value" with
    | false => simp [hv] at h
    | true =>
      simp only [hv, if_true] at h ⊢
      cases hidv : getKey ni "id" with
      | error e => simp [bind, Except.bind, hidv] at h
      | ok idv =>
        cases hs : getKey idv "S" with
        | error e => simp [bind, Except.bind, hidv, hs] at h
        | ok sv =>
          refine ⟨ni, sv, rfl, hv, ?_, ?_⟩
          · simp [hidv, hs, Except.toOption]
          · simp [bind, Except.bind, hidv, hs]

/-- A record whose dynamodb.NewImage lookup fails stops the loop body
with that failure and prints nothing. -/
theorem structuralError_spec (r : JVal) (e : PyError) (s : List LogLine)
    (hr : recordNewImage r = Except.error e) :
    processRecordStream r s = (s, some e) := by
  simp only [processRecordStream, hr]

/-- Unfolding of the lacks-value test. -/
theorem lacksValue_elim (r : JVal) (h : entryLacksValue r = true) :
    ∃ ni, recordNewImage r = Except.ok ni ∧ hasKey ni "value" = false := by
  unfold entryLacksValue at h
  cases hni : recordNewImage r with
  | error e => rw [hni] at h; cases h
  | ok ni =>
    rw [hni] at h
    exact ⟨ni, rfl, by simpa using h⟩

/-- The loop steps over a record it accepts, appending its print
lines. -/
theorem processLoop_valid_cons (r : JVal) (rs : List JVal)
    (s : List LogLine) (h : isValidEntry r = true) :
    processLoopStream (r :: rs) s = processLoopStream rs (s ++ entryLogs r) := by
  have h2 : (processRecordStream r []).2 = none := by
    unfold isValidEntry entryErr at h
    exact Option.isNone_iff_eq_none.mp h
  simp only [processLoopStream]
  rw [processRecordStream_local r s]
  simp [h2, entryLogs]

/-- Running the loop on accepted records followed by anything prints the
accepted records' lines and then behaves as the loop on the rest. -/
theorem processLoop_valid_front (pre rest : List JVal)
    (h : ∀ r ∈ pre, isValidEntry r = true) :
    processLoopStream (pre ++ rest) [] =
      ((pre.map entryLogs).flatten ++ (processLoopStream rest []).1,
       (processLoopStream rest []).2) := by
  induction pre with
  | nil => simp
  | cons r pre ih =>
    have hr := h r (List.mem_cons_self r pre)
    rw [List.cons_append, processLoop_valid_cons r (pre ++ rest) [] hr]
    rw [processLoopStream_local (pre ++ rest) ([] ++ entryLogs r)]
    rw [ih (fun x hx => h x (List.mem_cons_of_mem r hx))]
    simp

/-- When every record is accepted, the handler returns statusCode 200 and
prints the received event followed by every record's lines. -/
theorem handler_all_valid (ev : JVal) (rs : List JVal)
    (hrecs : getKey ev "Records" = Except.ok (JVal.arr rs))
    (h : ∀ r ∈ rs, isValidEntry r = true) :
    lambda_handler ev =
      (LogLine.receivedRecords ev :: (rs.map entryLogs).flatten,
       Except.ok statusOk) := by
  have hloop : processLoopStream rs [] = ((rs.map entryLogs).flatten, none) := by
    have h2 := processLoop_valid_front rs [] h
    simpa [processLoopStream] using h2
  simp only [lambda_handler, lambda_handler_stream, hrecs]
  rw [processLoopStream_local rs ([] ++ [LogLine.receivedRecords ev])]
  simp [hloop]

/-- When the records are accepted records followed by one whose NewImage
lacks the value field, the handler raises the malformed-entry error
carrying that NewImage, after printing the received event, the accepted
records' lines and the processing line of the offender; nothing behind
the offender is touched. -/
theorem handler_first_malformed (ev ni bad : JVal) (pre post : List JVal)
    (hrecs : getKey ev "Records" = Except.ok (JVal.arr (pre ++ bad :: post)))
    (hpre : ∀ r ∈ pre, isValidEntry r = true)
    (hni : recordNewImage bad = Except.ok ni)
    (hv : hasKey ni "value" = false) :
    lambda_handler ev =
      (LogLine.receivedRecords ev ::
        ((pre.map entryLogs).flatten ++ [LogLine.processingRecord ni]),
       Except.error (PyError.malformedEntry ni)) := by
  have hb : processLoopStream (bad :: post) [] =
      ([LogLine.processingRecord ni], some (PyError.malformedEntry ni)) := by
    simp only [processLoopStream]
    rw [lacksValue_spec bad ni [] hni hv]
    simp
  have hloop : processLoopStream (pre ++ bad :: post) [] =
      ((pre.map entryLogs).flatten ++ [LogLine.processingRecord ni],
       some (PyError.malformedEntry ni)) := by
    rw [processLoop_valid_front pre (bad :: post) hpre, hb]
  simp only [lambda_handler, lambda_handler_stream, hrecs]
  rw [processLoopStream_local _ ([] ++ [LogLine.receivedRecords ev])]
  simp [hloop]

/-- When the records are accepted records followed by one whose
dynamodb.NewImage lookup fails, the handler raises that lookup
failure. -/
theorem handler_prefix_error (ev bad : JVal) (pre post : List JVal)
    (e : PyError)
    (hrecs : getKey ev "Records" = Except.ok (JVal.arr (pre ++ bad :: post)))
    (hpre : ∀ r ∈ pre, isValidEntry r = true)
    (hbad : recordNewImage bad = Except.error e) :
    (lambda_handler ev).2 = Except.error e := by
  have hb : processLoopStream (bad :: post) [] = ([], some e) := by
    simp only [processLoopStream]
    rw [structuralError_spec bad e [] hbad]
  have hloop : processLoopStream (pre ++ bad :: post) [] =
      ((pre.map entryLogs).flatten, some e) := by
    rw [processLoop_valid_front pre (bad :: post) hpre, hb]
    simp
  simp only [lambda_handler, lambda_handler_stream, hrecs]
  rw [processLoopStream_local _ ([] ++ [LogLine.receivedRecords ev])]
  simp [hloop]

/-- The handler only appends to the print stream; its result does not
depend on what was printed before it ran. -/
theorem lambda_handler_stream_local (ev : JVal) (s : List LogLine) :
    lambda_handler_stream ev s =
      (s ++ (lambda_handler ev).1, (lambda_handler ev).2) := by
  cases hrecs : getKey ev "Records" with
  | error e => simp [lambda_handler, lambda_handler_stream, hrecs]
  | ok v =>
    cases v with
    | arr rs =>
      simp only [lambda_handler, lambda_handler_stream, hrecs]
      rw [processLoopStream_local rs (s ++ [LogLine.receivedRecords ev]),
        processLoopStream_local rs ([] ++ [LogLine.receivedRecords ev])]
      cases (processLoopStream rs []).2 <;> simp
    | str a => simp [lambda_handler, lambda_handler_stream, hrecs]
    | num a => simp [lambda_handler, lambda_handler_stream, hrecs]
    | bool a => simp [lambda_handler, lambda_handler_stream, hrecs]
    | null => simp [lambda_handler, lambda_handler_stream, hrecs]
    | obj a => simp [lambda_handler, lambda_handler_stream, hrecs]

theorem reportedIds_append (s t : List LogLine) :
    reportedIds (s ++ t) = reportedIds s ++ reportedIds t := by
  simp [reportedIds]

theorem reportedIds_cons_received (v : JVal) (s : List LogLine) :
    reportedIds (LogLine.receivedRecords v :: s) = reportedIds s := by
  simp [reportedIds]

/-- The ids printed for a list of accepted records are their id wrapper
contents, in order. -/
theorem reportedIds_join_valid (rs : List JVal)
    (h : ∀ r ∈ rs, isValidEntry r = true) :
    reportedIds (rs.map entryLogs).flatten = rs.filterMap entryIdS := by
  induction rs with
  | nil => simp [reportedIds]
  | cons r rest ih =>
    have hr := h r (List.mem_cons_self r rest)
    obtain ⟨ni, sv, hni, hv, hid, hlog⟩ := validEntry_spec r hr
    have ihr := ih (fun x hx => h x (List.mem_cons_of_mem r hx))
    simp only [List.map_cons, List.flatten_cons, reportedIds_append, ihr,
      List.filterMap_cons, hid, hlog]
    simp [reportedIds]

/-- Accepted records all carry a reportable id, so the reported ids are
in bijection with the records. -/
theorem filterMap_idS_length (rs : List JVal)
    (h : ∀ r ∈ rs, isValidEntry r = true) :
    (rs.filterMap entryIdS).length = rs.length := by
  induction rs with
  | nil => simp
  | cons r rest ih =>
    have hr := h r (List.mem_cons_self r rest)
    obtain ⟨ni, sv, hni, hv, hid, hlog⟩ := validEntry_spec r hr
    simp [List.filterMap_cons, hid,
      ih (fun x hx => h x (List.mem_cons_of_mem r hx))]

/-- A batch of accepted and value-lacking records with at least one of
the latter splits at the first value-lacking record. -/
theorem exists_first_lacking (rs : List JVal)
    (hall : ∀ r ∈ rs, isValidEntry r = true ∨ entryLacksValue r = true)
    (hex : ∃ r ∈ rs, entryLacksValue r = true) :
    ∃ pre bad post, rs = pre ++ bad :: post ∧
      (∀ r ∈ pre, isValidEntry r = true) ∧ entryLacksValue bad = true := by
  induction rs with
  | nil =>
    obtain ⟨r, hr, _⟩ := hex
    cases hr
  | cons a rest ih =>
    cases hla : entryLacksValue a with
    | true =>
      exact ⟨[], a, rest, rfl,
        ⟨fun r hr => absurd hr (List.not_mem_nil r), hla⟩⟩
    | false =>
      have ha : isValidEntry a = true := by
        rcases hall a (List.mem_cons_self a rest) with h | h
        · exact h
        · rw [hla] at h; cases h
      have hex2 : ∃ r ∈ rest, entryLacksValue r = true := by
        obtain ⟨r, hr, hlr⟩ := hex
        rcases List.mem_cons.mp hr with rfl | hr2
        · rw [hla] at hlr; cases hlr
        · exact ⟨r, hr2, hlr⟩
      obtain ⟨pre, bad, post, heq, hpre, hbad⟩ :=
        ih (fun r hr => hall r (List.mem_cons_of_mem a hr)) hex2
      refine ⟨a :: pre, bad, post, by rw [heq, List.cons_append], ?_, hbad⟩
      intro r hr
      rcases List.mem_cons.mp hr with rfl | hr2
      · exact ha
      · exact hpre r hr2

end Validator

/-- Claim C1: for a batch of valid and value-lacking entries containing
at least one entry whose NewImage lacks the value field, the validator
raises the malformed-entry error and returns no success result,
regardless of how many valid entries precede or follow it. -/
theorem C1_batch_with_missing_value_fails (ev : JVal) (rs : List JVal)
    (hrecs : getKey ev "Records" = Except.ok (JVal.arr rs))
    (hall : ∀ r ∈ rs, Validator.isValidEntry r = true ∨
      Validator.entryLacksValue r = true)
    (hex : ∃ r ∈ rs, Validator.entryLacksValue r = true) :
    Validator.isMalformedError (Validator.lambda_handler ev).2 = true ∧
    Validator.isOkResult (Validator.lambda_handler ev).2 = false := by
  obtain ⟨pre, bad, post, heq, hpre, hbad⟩ :=
    Validator.exists_first_lacking rs hall hex
  obtain ⟨ni, hni, hv⟩ := Validator.lacksValue_elim bad hbad
  subst heq
  rw [Validator.handler_first_malformed ev ni bad pre post hrecs hpre hni hv]
  exact ⟨rfl, rfl⟩

/-- Witness for C1 at the two-record batch of one valid entry followed
by one entry whose NewImage lacks the value field. -/
theorem C1_witness :
    Validator.isMalformedError (Validator.lambda_handler evW1).2 = true ∧
    Validator.isOkResult (Validator.lambda_handler evW1).2 = false :=
  C1_batch_with_missing_value_fails evW1 [validRec1, noValueRec2] rfl
    (by intro r hr
        rcases List.mem_cons.mp hr with rfl | hr2
        · exact Or.inl (by decide)
        · rcases List.mem_cons.mp hr2 with rfl | hr3
          · exact Or.inr (by decide)
          · exact absurd hr3 (List.not_mem_nil r))
    ⟨noValueRec2, List.mem_cons_of_mem _ (List.mem_cons_self _ _), by decide⟩

/-- Claim C2 as stated is refuted: this batch has every NewImage carrying
the value field, yet the handler raises a key lookup failure on id
instead of returning success, because the acceptance log reads
new_image["id"]["S"]. -/
theorem C2_counterexample :
    getKey evC2x "Records" = Except.ok (JVal.arr [noIdRecX]) ∧
    Validator.entryHasValue noIdRecX = true ∧
    (Validator.lambda_handler evC2x).2 = Except.error (PyError.keyError "id") ∧
    Validator.isOkResult (Validator.lambda_handler evC2x).2 = false :=
  ⟨rfl, by decide, rfl, by decide⟩

/-- Claim C2, amended: for a batch in which every NewImage carries the
value field and also a reportable id (an id field whose wrapper carries
an S component), the handler returns statusCode 200 and reports each
record's id wrapper content, in order. -/
theorem C2_all_valid_success (ev : JVal) (rs : List JVal)
    (hrecs : getKey ev "Records" = Except.ok (JVal.arr rs))
    (h : ∀ r ∈ rs, Validator.isValidEntry r = true) :
    (Validator.lambda_handler ev).2 = Except.ok Validator.statusOk ∧
    Validator.reportedIds (Validator.lambda_handler ev).1 =
      rs.filterMap Validator.entryIdS ∧
    (rs.filterMap Validator.entryIdS).length = rs.length := by
  have hh := Validator.handler_all_valid ev rs hrecs h
  refine ⟨by rw [hh], ?_, Validator.filterMap_idS_length rs h⟩
  rw [hh, Validator.reportedIds_cons_received,
    Validator.reportedIds_join_valid rs h]

/-- Witness for the amended C2 at a two-record batch of valid entries. -/
theorem C2_witness :
    (Validator.lambda_handler evW2).2 = Except.ok Validator.statusOk ∧
    Validator.reportedIds (Validator.lambda_handler evW2).1 =
      [validRec1, validRec3].filterMap Validator.entryIdS ∧
    ([validRec1, validRec3].filterMap Validator.entryIdS).length =
      [validRec1, validRec3].length :=
  C2_all_valid_success evW2 [validRec1, validRec3] rfl
    (by intro r hr
        rcases List.mem_cons.mp hr with rfl | hr2
        · decide
        · rcases List.mem_cons.mp hr2 with rfl | hr3
          · decide
          · exact absurd hr3 (List.not_mem_nil r))

/-- Claim C3: with valid entries before the first value-lacking entry,
the raised error carries exactly that entry's NewImage, the printed
lines stop at its processing line, and acceptance is reported exactly
for the entries before it, so nothing after it is processed. -/
theorem C3_first_malformed_reported (ev ni bad : JVal) (pre post : List JVal)
    (hrecs : getKey ev "Records" = Except.ok (JVal.arr (pre ++ bad :: post)))
    (hpre : ∀ r ∈ pre, Validator.isValidEntry r = true)
    (hni : Validator.recordNewImage bad = Except.ok ni)
    (hv : hasKey ni "value" = false) :
    (Validator.lambda_handler ev).2 =
      Except.error (PyError.malformedEntry ni) ∧
    (Validator.lambda_handler ev).1 =
      Validator.LogLine.receivedRecords ev ::
        ((pre.map Validator.entryLogs).flatten ++
          [Validator.LogLine.processingRecord ni]) ∧
    Validator.reportedIds (Validator.lambda_handler ev).1 =
      pre.filterMap Validator.entryIdS := by
  have hh := Validator.handler_first_malformed ev ni bad pre post hrecs hpre hni hv
  refine ⟨by rw [hh], by rw [hh], ?_⟩
  rw [hh, Validator.reportedIds_cons_received, Validator.reportedIds_append,
    Validator.reportedIds_join_valid pre hpre]
  simp [Validator.reportedIds]

/-- Witness for C3 at a batch of one valid entry, one value-lacking
entry, then another valid entry. -/
theorem C3_witness :
    (Validator.lambda_handler evW3).2 =
      Except.error (PyError.malformedEntry (JVal.obj [("id", wrapS "2")])) ∧
    (Validator.lambda_handler evW3).1 =
      Validator.LogLine.receivedRecords evW3 ::
        (([validRec1].map Validator.entryLogs).flatten ++
          [Validator.LogLine.processingRecord (JVal.obj [("id", wrapS "2")])]) ∧
    Validator.reportedIds (Validator.lambda_handler evW3).1 =
      [validRec1].filterMap Validator.entryIdS :=
  C3_first_malformed_reported evW3 (JVal.obj [("id", wrapS "2")]) noValueRec2
    [validRec1] [validRec3] rfl
    (by intro r hr
        rcases List.mem_cons.mp hr with rfl | hr2
        · decide
        · exact absurd hr2 (List.not_mem_nil r))
    rfl (by decide)

/-- Claim C4: when the validator raises the malformed-entry error, the
error value carries the NewImage mapping of the first entry lacking the
value field. -/
theorem C4_error_carries_new_image (ev ni bad : JVal) (pre post : List JVal)
    (hrecs : getKey ev "Records" = Except.ok (JVal.arr (pre ++ bad :: post)))
    (hpre : ∀ r ∈ pre, Validator.isValidEntry r = true)
    (hni : Validator.recordNewImage bad = Except.ok ni)
    (hv : hasKey ni "value" = false) :
    (Validator.lambda_handler ev).2 =
      Except.error (PyError.malformedEntry ni) := by
  rw [Validator.handler_first_malformed ev ni bad pre post hrecs hpre hni hv]

/-- Witness for C4 at a one-record batch whose NewImage is empty. -/
theorem C4_witness :
    (Validator.lambda_handler evW4).2 =
      Except.error (PyError.malformedEntry (JVal.obj [])) :=
  C4_error_carries_new_image evW4 (JVal.obj []) noValueRecEmpty [] [] rfl
    (fun r hr => absurd hr (List.not_mem_nil r)) rfl (by decide)

/-- Claim C5: an event whose Records value is the empty sequence yields
statusCode 200, prints only the received-records line, and reports no
entries. -/
theorem C5_empty_batch_success (ev : JVal)
    (hrecs : getKey ev "Records" = Except.ok (JVal.arr [])) :
    (Validator.lambda_handler ev).2 = Except.ok Validator.statusOk ∧
    (Validator.lambda_handler ev).1 = [Validator.LogLine.receivedRecords ev] ∧
    Validator.reportedIds (Validator.lambda_handler ev).1 = [] := by
  have hh := Validator.handler_all_valid ev [] hrecs
    (fun r hr => absurd hr (List.not_mem_nil r))
  refine ⟨by rw [hh], by rw [hh]; simp, ?_⟩
  rw [hh]
  simp [Validator.reportedIds]

/-- Witness for C5 at the canonical empty-batch event. -/
theorem C5_witness :
    (Validator.lambda_handler evW5).2 = Except.ok Validator.statusOk ∧
    (Validator.lambda_handler evW5).1 = [Validator.LogLine.receivedRecords evW5] ∧
    Validator.reportedIds (Validator.lambda_handler evW5).1 = [] :=
  C5_empty_batch_success evW5 rfl

/-- Claim C6: a batch whose single entry carries the value field but no
id field makes the validator raise a key lookup failure on id at the
acceptance log step instead of returning success, even though every
entry satisfies the value-field invariant. -/
theorem C6_missing_id_raises :
    Validator.entryHasValue noIdRecY = true ∧
    (Validator.lambda_handler evC6x).2 = Except.error (PyError.keyError "id") ∧
    Validator.isOkResult (Validator.lambda_handler evC6x).2 = false :=
  ⟨by decide, rfl, by decide⟩

/-- Claim C7 as stated is refuted: this event contains a record missing
the dynamodb key, yet the raised error is the malformed-entry error,
because an earlier record whose NewImage lacks the value field fails
first. -/
theorem C7_counterexample :
    hasKey noDynamoRec "dynamodb" = false ∧
    Validator.isMalformedError (Validator.lambda_handler evC7x).2 = true :=
  ⟨by decide, by decide⟩

/-- Claim C7, amended: an event without the Records key raises the
Records key lookup failure; an event whose records are valid entries
followed by a record whose dynamodb.NewImage lookup fails raises that
unclassified key lookup failure, not the malformed-entry error.  In
both cases no success result is returned and the whole batch fails. -/
theorem C7_structural_errors_fail_batch :
    (∀ ev, getKey ev "Records" = Except.error (PyError.keyError "Records") →
      (Validator.lambda_handler ev).2 =
        Except.error (PyError.keyError "Records")) ∧
    (∀ ev bad pre post k,
      getKey ev "Records" = Except.ok (JVal.arr (pre ++ bad :: post)) →
      (∀ r ∈ pre, Validator.isValidEntry r = true) →
      Validator.recordNewImage bad = Except.error (PyError.keyError k) →
      (Validator.lambda_handler ev).2 = Except.error (PyError.keyError k) ∧
      Validator.isMalformedError (Validator.lambda_handler ev).2 = false) := by
  constructor
  · intro ev h
    simp [Validator.lambda_handler, Validator.lambda_handler_stream, h]
  · intro ev bad pre post k h hpre hbad
    have hh := Validator.handler_prefix_error ev bad pre post _ h hpre hbad
    exact ⟨hh, by rw [hh]; rfl⟩

/-- Witness for the amended C7 at an event without the Records key and
at an event whose only record lacks the dynamodb key. -/
theorem C7_witness :
    (Validator.lambda_handler evW7a).2 =
      Except.error (PyError.keyError "Records") ∧
    ((Validator.lambda_handler evW7b).2 =
      Except.error (PyError.keyError "dynamodb") ∧
     Validator.isMalformedError (Validator.lambda_handler evW7b).2 = false) :=
  ⟨C7_structural_errors_fail_batch.1 evW7a rfl,
   C7_structural_errors_fail_batch.2 evW7b noDynamoRec [] [] "dynamodb" rfl
     (fun r hr => absurd hr (List.not_mem_nil r)) rfl⟩

/-- Claim C8: the validation outcome is a deterministic function of the
event alone; equal events give equal outcomes, and what was printed
before the handler ran does not influence its result. -/
theorem C8_deterministic_logs_independent (e1 e2 : JVal)
    (s1 s2 : List Validator.LogLine) (h : e1 = e2) :
    (Validator.lambda_handler_stream e1 s1).2 =
      (Validator.lambda_handler_stream e2 s2).2 ∧
    Validator.lambda_handler e1 = Validator.lambda_handler e2 := by
  subst h
  refine ⟨?_, rfl⟩
  rw [Validator.lambda_handler_stream_local e1 s1,
    Validator.lambda_handler_stream_local e1 s2]

/-- Witness for C8 at one concrete event and two different prior print
streams. -/
theorem C8_witness :
    (Validator.lambda_handler_stream evW8
        [Validator.LogLine.processedId (JVal.str "0")]).2 =
      (Validator.lambda_handler_stream evW8 []).2 ∧
    Validator.lambda_handler evW8 = Validator.lambda_handler evW8 :=
  C8_deterministic_logs_independent evW8 evW8
    [Validator.LogLine.processedId (JVal.str "0")] [] rfl

/-- Claim C9: for an event naming a bucket and key whose stored object
parses as a JSON sequence, the copier performs one put_item into the
fixed table per record of the sequence, in order, and returns
statusCode 200 with the fixed body. -/
theorem C9_copier_inserts_all_records (store : Copier.S3Store)
    (ev r0 s3p bObj oObj : JVal) (tail : List JVal) (b k : String)
    (items : List JVal)
    (h1 : getKey ev "Records" = Except.ok (JVal.arr (r0 :: tail)))
    (h2 : getKey r0 "s3" = Except.ok s3p)
    (h3 : getKey s3p "bucket" = Except.ok bObj)
    (h4 : getKey bObj "name" = Except.ok (JVal.str b))
    (h5 : getKey s3p "object" = Except.ok oObj)
    (h6 : getKey oObj "key" = Except.ok (JVal.str k))
    (h7 : Copier.s3_get_object store b k = Except.ok (JVal.arr items)) :
    (Copier.lambda_handler store ev).writes =
      items.map (fun r => (Copier.table_name, r)) ∧
    (Copier.lambda_handler store ev).result = Except.ok Copier.copierOk := by
  have hf : Copier.fetchParsed store r0 = Except.ok (JVal.arr items) := by
    simp [Copier.fetchParsed, bind, Except.bind, h2, h3, h4, h5, h6,
      Copier.asString, h7]
  constructor <;>
    simp [Copier.lambda_handler, bind, Except.bind, h1, index0, hf]

/-- Witness for C9 at a one-record notification event and a store
holding a two-record JSON sequence. -/
theorem C9_witness :
    (Copier.lambda_handler storeW9 evW9).writes =
      itemsW9.map (fun r => (Copier.table_name, r)) ∧
    (Copier.lambda_handler storeW9 evW9).result = Except.ok Copier.copierOk :=
  C9_copier_inserts_all_records storeW9 evW9 (s3rec "demo-bucket" "data.json")
    (JVal.obj [("bucket", JVal.obj [("name", JVal.str "demo-bucket")]),
               ("object", JVal.obj [("key", JVal.str "data.json")])])
    (JVal.obj [("name", JVal.str "demo-bucket")])
    (JVal.obj [("key", JVal.str "data.json")])
    [] "demo-bucket" "data.json" itemsW9 rfl rfl rfl rfl rfl rfl rfl

/-- Claim C10: the copier reads the bucket and key only from the first
element of the Records sequence; two events sharing a first record
produce the same writes and the same result, whatever else their
Records sequences hold. -/
theorem C10_copier_uses_first_record_only (store : Copier.S3Store)
    (ev1 ev2 r0 : JVal) (t1 t2 : List JVal)
    (h1 : getKey ev1 "Records" = Except.ok (JVal.arr (r0 :: t1)))
    (h2 : getKey ev2 "Records" = Except.ok (JVal.arr (r0 :: t2))) :
    (Copier.lambda_handler store ev1).writes =
      (Copier.lambda_handler store ev2).writes ∧
    (Copier.lambda_handler store ev1).result =
      (Copier.lambda_handler store ev2).result := by
  have key : ∀ ev t, getKey ev "Records" = Except.ok (JVal.arr (r0 :: t)) →
      (Copier.lambda_handler store ev).writes =
        (match Copier.fetchParsed store r0 with
          | Except.ok (JVal.arr records) =>
            records.map (fun r => (Copier.table_name, r))
          | _ => []) ∧
      (Copier.lambda_handler store ev).result =
        (match Copier.fetchParsed store r0 with
          | Except.error e => Except.error e
          | Except.ok (JVal.arr _) => Except.ok Copier.copierOk
          | Except.ok _ => Except.error PyError.typeError) := by
    intro ev t h
    cases hf : Copier.fetchParsed store r0 with
    | error e => constructor <;>
        simp [Copier.lambda_handler, bind, Except.bind, h, index0, hf]
    | ok v => cases v <;> constructor <;>
        simp [Copier.lambda_handler, bind, Except.bind, h, index0, hf]
  obtain ⟨w1, r1⟩ := key ev1 t1 h1
  obtain ⟨w2, r2⟩ := key ev2 t2 h2
  exact ⟨w1.trans w2.symm, r1.trans r2.symm⟩

/-- Witness for C10 at two events sharing the first notification record
but differing in the rest of their Records sequences. -/
theorem C10_witness :
    (Copier.lambda_handler storeW9 evW10a).writes =
      (Copier.lambda_handler storeW9 evW10b).writes ∧
    (Copier.lambda_handler storeW9 evW10a).result =
      (Copier.lambda_handler storeW9 evW10b).result :=
  C10_copier_uses_first_record_only storeW9 evW10a evW10b
    (s3rec "demo-bucket" "data.json") [JVal.str "extra"]
    [noDynamoRec, JVal.null] rfl rfl
